import Mathlib

/-!
Shallow embedding of the NWCRC-Email-Check batch breach scanner
(`src/app.py`, classes `BreachChecker` and `BatchProcessor`, plus the
relevant configuration from `src/config.py`).

Strings are modelled as `List Char`; wall-clock times and delays as `ℚ`;
the Python `requests` transport as an explicit value (a response or a
raised `RequestException`).  Python dicts that the code builds with fixed
keys are modelled as structures, with `Option` for keys that are present
only on some code paths.  Insertion-ordered dicts used as counters are
modelled as association lists in insertion order.
-/

namespace NWCRC

/-- Strings, modelled as lists of characters. -/
abbrev Str := List Char

/-! ### Character classes and Python string helpers -/

/-- ASCII alphabetic, the regex class `[a-zA-Z]`. -/
def isAsciiAlpha (c : Char) : Bool :=
  ('A' ≤ c && c ≤ 'Z') || ('a' ≤ c && c ≤ 'z')

/-- ASCII digit, the regex class `[0-9]`. -/
def isAsciiDigit (c : Char) : Bool :=
  '0' ≤ c && c ≤ '9'

/-- The regex class `[a-zA-Z0-9._%+-]` (local part of the email pattern). -/
def isLocalChar (c : Char) : Bool :=
  isAsciiAlpha c || isAsciiDigit c || c = '.' || c = '_' || c = '%' || c = '+' || c = '-'

/-- The regex class `[a-zA-Z0-9.-]` (domain part of the email pattern). -/
def isDomainChar (c : Char) : Bool :=
  isAsciiAlpha c || isAsciiDigit c || c = '.' || c = '-'

/-- Whitespace stripped by Python `str.strip()` (ASCII subset). -/
def pyStrip (s : Str) : Str :=
  ((s.dropWhile Char.isWhitespace).reverse.dropWhile Char.isWhitespace).reverse

/-- Python `str.lower()` (ASCII range). -/
def pyLower (s : Str) : Str :=
  s.map Char.toLower

/-- The normalization `email.strip().lower()` applied in `start_batch_scan`
(`src/app.py:231`) and `scan_single` (`src/app.py:503`). -/
def normalizeEmail (s : Str) : Str :=
  pyLower (pyStrip s)

/-- Does `needle` occur at the start of the second argument?  Helper for
the Python substring operator `in`. -/
def segStarts : Str → Str → Bool
  | [], _ => true
  | _ :: _, [] => false
  | a :: as, b :: bs => a = b && segStarts as bs

/-- Python substring test `needle in hay` on strings. -/
def hasSeg (needle : Str) : Str → Bool
  | [] => needle.isEmpty
  | b :: bs => segStarts needle (b :: bs) || hasSeg needle bs

/-! ### `BatchProcessor._is_valid_email` (src/app.py:428-431)

The Python code is
`re.match(r'^[a-zA-Z0-9._%+-]+@[a-zA-Z0-9.-]+\.[a-zA-Z]{2,}$', email)`.
Since `@` is in neither character class, a match is: a nonempty maximal
local-char prefix, then `@`, then a domain tail `D+ . A{2,}` anchored at
the end of the string.  Inside the tail the `{2,}` alphabetic run is a
suffix of the string, and the character before it must be the literal
dot (alphabetic characters cannot be that dot), so matching the tail
reduces to inspecting the maximal trailing alphabetic run. -/

/-- Matches the anchored regex fragment `[a-zA-Z0-9.-]+\.[a-zA-Z]{2,}$`. -/
def matchDomainTail (rest : Str) : Bool :=
  rest.all isDomainChar &&
    (let rev := rest.reverse
     let k := (rev.takeWhile isAsciiAlpha).length
     decide (2 ≤ k) &&
       (match rev.drop k with
        | '.' :: d => !d.isEmpty
        | _ => false))

/-- `BatchProcessor._is_valid_email` (src/app.py:428-431). -/
def is_valid_email (s : Str) : Bool :=
  match s.dropWhile isLocalChar with
  | '@' :: rest => !(s.takeWhile isLocalChar).isEmpty && matchDomainTail rest
  | _ => false

/-! ### `BreachChecker._calculate_severity` (src/app.py:175-198) -/

/-- One breach record, with the fields `_calculate_severity` and
`get_batch_statistics` read via `dict.get` with defaults
(`IsVerified`/`IsSensitive` default `False`, `DataClasses` default `[]`,
`Name` defaulted to `'Unknown'` where absent). -/
structure Breach where
  IsVerified : Bool
  IsSensitive : Bool
  DataClasses : List Str
  Name : Option Str
deriving DecidableEq

/-- `high_severity_indicators` (src/app.py:180). -/
def high_severity_indicators : List Str :=
  ["passwords".data, "credit cards".data, "social security numbers".data]

/-- The per-breach high-risk test of src/app.py:186-189: lower-case the
data classes, join them with single spaces, and test each indicator with
the Python substring operator `in`. -/
def isHighRiskBreach (b : Breach) : Bool :=
  let data_classes := b.DataClasses.map pyLower
  high_severity_indicators.any fun ind => hasSeg ind (List.intercalate [' '] data_classes)

/-- `BreachChecker._calculate_severity` (src/app.py:175-198). -/
def calculate_severity (breaches : List Breach) : Str :=
  if breaches.isEmpty then "clean".data
  else
    let verified_breaches := breaches.countP fun b => b.IsVerified
    let sensitive_breaches := breaches.countP fun b => b.IsSensitive
    let high_risk_count := breaches.countP isHighRiskBreach
    if high_risk_count > 0 ∨ sensitive_breaches > 2 then "critical".data
    else if verified_breaches > 3 ∨ breaches.length > 5 then "high".data
    else if breaches.length > 2 then "medium".data
    else "low".data

/-! ### The HTTP transport and `BreachChecker._get_with_retry` (src/app.py:74-87) -/

/-- An HTTP response as seen by the code: the status code, the
`Retry-After` header (absent or a raw string), and the parsed JSON body
(`response.json()`), whose type depends on the endpoint. -/
structure Response (β : Type) where
  status_code : Nat
  retry_after : Option Str
  body : β
deriving DecidableEq

/-- Outcome of one `session.get`: a response, or a raised
`requests.exceptions.RequestException` carrying its message. -/
inductive HttpResult (β : Type) where
  | ok : Response β → HttpResult β
  | exn : Str → HttpResult β
deriving DecidableEq

/-- Digit-string parsing underlying Python `int(str)`. -/
def parseNatDigits (s : Str) : Option Nat :=
  if s.isEmpty then none
  else if s.all isAsciiDigit then
    some (s.foldl (fun acc c => 10 * acc + (c.toNat - '0'.toNat)) 0)
  else none

/-- Python `int(s)` for a string `s`: optional surrounding whitespace,
optional sign, then decimal digits; `none` models the raised
`ValueError` (digit-group underscores are not modelled). -/
def pyParseInt (s : Str) : Option Int :=
  let t := pyStrip s
  match t with
  | '+' :: rest => (parseNatDigits rest).map Int.ofNat
  | '-' :: rest => (parseNatDigits rest).map fun n => -(n : Int)
  | _ => (parseNatDigits t).map Int.ofNat

/-- The retry delay computed at src/app.py:78-83:
`delay = int(retry_after) if retry_after else 60; delay = max(1, min(delay, 60))`,
with any exception (absent header is falsy, as is the empty string, and
a non-numeric header raises in `int`) yielding `delay = 60`. -/
def retryDelay (retry_after : Option Str) : Int :=
  match retry_after with
  | none => max 1 (min 60 60)
  | some s =>
    if s.isEmpty then max 1 (min 60 60)
    else
      match pyParseInt s with
      | some v => max 1 (min v 60)
      | none => 60

/-- `BreachChecker._get_with_retry` (src/app.py:74-87) over a scripted
transport: `e1` is the outcome of the first `session.get`, `e2` of the
second (issued only on a first-response 429).  Returns the outcome the
caller sees, the number of requests issued, and the total time slept. -/
def get_with_retry {β : Type} (e1 e2 : HttpResult β) : HttpResult β × Nat × Int :=
  match e1 with
  | .exn m => (.exn m, 1, 0)
  | .ok r1 =>
    if r1.status_code = 429 then
      (e2, 2, retryDelay r1.retry_after)
    else
      (.ok r1, 1, 0)

/-! ### `BreachChecker.check_breaches` (src/app.py:89-144) -/

/-- The dict returned by `check_breaches`.  `severity` is present only in
the 200/404 branches, `error` only in the error branches, `retry_after`
only in the 429 branch; absent keys are `none`. -/
structure BreachCheckOutcome where
  status : Str
  breaches : List Breach
  breach_count : Nat
  severity : Option Str
  error : Option Str
  retry_after : Option Str
deriving DecidableEq

/-- The `if`/`elif` chain of `check_breaches` (src/app.py:95-144) on the
outcome delivered by `_get_with_retry`, including the
`requests.exceptions.RequestException` handler. -/
def classify_breach_response : HttpResult (List Breach) → BreachCheckOutcome
  | .exn m =>
    { status := "error".data, breaches := [], breach_count := 0,
      severity := none, error := some ("Network error: ".data ++ m),
      retry_after := none }
  | .ok r =>
    if r.status_code = 200 then
      { status := if r.body.isEmpty then "clean".data else "compromised".data,
        breaches := r.body, breach_count := r.body.length,
        severity := some (if r.body.isEmpty then "clean".data
                          else calculate_severity r.body),
        error := none, retry_after := none }
    else if r.status_code = 404 then
      { status := "clean".data, breaches := [], breach_count := 0,
        severity := some "clean".data, error := none, retry_after := none }
    else if r.status_code = 429 then
      { status := "error".data, breaches := [], breach_count := 0,
        severity := none, error := some "Rate limit exceeded".data,
        retry_after := r.retry_after }
    else if r.status_code = 401 then
      { status := "error".data, breaches := [], breach_count := 0,
        severity := none,
        error := some "Unauthorized: Invalid or inactive API key".data,
        retry_after := none }
    else
      { status := "error".data, breaches := [], breach_count := 0,
        severity := none,
        error := some ("API error: ".data ++ (Nat.repr r.status_code).data),
        retry_after := none }

/-- `BreachChecker.check_breaches` (src/app.py:89-144) over the scripted
transport, also reporting requests issued and total sleep. -/
def check_breaches (e1 e2 : HttpResult (List Breach)) :
    BreachCheckOutcome × Nat × Int :=
  let res := get_with_retry e1 e2
  (classify_breach_response res.1, res.2.1, res.2.2)

/-! ### `BreachChecker.check_pastes` (src/app.py:146-173) -/

/-- The dict returned by `check_pastes`; paste records are opaque. -/
structure PasteOutcome where
  pastes : List Str
  paste_count : Nat
deriving DecidableEq

/-- The `if`/`elif` chain of `check_pastes` (src/app.py:152-173) on the
outcome delivered by `_get_with_retry`, including the exception handler.
Note that the non-200/404 branch and the exception handler both return
the same record as the 404 branch. -/
def classify_paste_response : HttpResult (List Str) → PasteOutcome
  | .exn _ => { pastes := [], paste_count := 0 }
  | .ok r =>
    if r.status_code = 200 then
      { pastes := r.body, paste_count := r.body.length }
    else if r.status_code = 404 then
      { pastes := [], paste_count := 0 }
    else
      { pastes := [], paste_count := 0 }

/-- `BreachChecker.check_pastes` (src/app.py:146-173) over the scripted
transport, also reporting requests issued and total sleep. -/
def check_pastes (e1 e2 : HttpResult (List Str)) : PasteOutcome × Nat × Int :=
  let res := get_with_retry e1 e2
  (classify_paste_response res.1, res.2.1, res.2.2)

/-! ### `BatchProcessor` state (src/app.py:200-221) -/

/-- The `scan_progress` dict.  `batch_id` is present only after the first
successful `start_batch_scan`; `start_time` and `estimated_completion`
are `None` initially.  Timestamps are rationals (seconds). -/
structure Progress where
  total : Nat
  completed : Nat
  current_email : Str
  status : Str
  start_time : Option ℚ
  estimated_completion : Option ℚ
  batch_id : Option Str
deriving DecidableEq

/-- One entry of `scan_results`, as assembled by `_scan_single_email`
(src/app.py:372-411).  `severity` and `error` are `Option` because the
exception path (src/app.py:402-411) omits the `severity` key and the
success path stores `breach_result.get('error')`, which may be `None`. -/
structure ScanResult where
  email : Str
  timestamp : Str
  status : Str
  breaches : List Breach
  breach_count : Nat
  severity : Option Str
  pastes : List Str
  paste_count : Nat
  error : Option Str
deriving DecidableEq

/-- The mutable state of one `BatchProcessor` (src/app.py:203-221):
the queue, the accumulated results, the progress dict, the batch id and
the three control flags.  The processing thread itself is modelled by
the worker transitions below. -/
structure ControllerState where
  queue : List Str
  results : List ScanResult
  progress : Progress
  current_batch_id : Option Str
  is_processing : Bool
  is_paused : Bool
  should_stop : Bool
deriving DecidableEq

/-- The state built by `BatchProcessor.__init__` (src/app.py:203-221). -/
def initState : ControllerState where
  queue := []
  results := []
  progress :=
    { total := 0, completed := 0, current_email := [], status := "idle".data,
      start_time := none, estimated_completion := none, batch_id := none }
  current_batch_id := none
  is_processing := false
  is_paused := false
  should_stop := false

/-- `60 / Config.RATE_LIMIT_PER_MINUTE` (src/app.py:220, src/config.py). -/
def rate_limit_delay (ratePerMinute : ℚ) : ℚ := 60 / ratePerMinute

/-! ### `BatchProcessor.start_batch_scan` (src/app.py:223-277) -/

/-- The two `ValueError`s raised by `start_batch_scan`:
`'Another scan is already in progress'` (src/app.py:226) and
`'No valid emails provided'` (src/app.py:236). -/
inductive StartError where
  | alreadyRunning
  | noValidInput
deriving DecidableEq

/-- The validation loop of src/app.py:229-233: normalize every entry and
keep those passing `_is_valid_email`, preserving order. -/
def validNormalized (emails : List Str) : List Str :=
  (emails.map normalizeEmail).filter is_valid_email

/-- The dedup loop of src/app.py:239-244, with its `seen` set as a list
(only membership is used). -/
def dedupLoop (seen : List Str) : List Str → List Str
  | [] => []
  | e :: es =>
    if e ∈ seen then dedupLoop seen es
    else e :: dedupLoop (e :: seen) es

/-- `BatchProcessor.start_batch_scan` (src/app.py:223-277).  `newId` is
the fresh `str(uuid.uuid4())[:8]` and `now` the current time used for
`start_time`.  Returns the post-call state and either the batch id or
the raised error; both `raise` statements occur before any state
mutation, so the error cases return the state unchanged. -/
def start_batch_scan (s : ControllerState) (emails : List Str)
    (newId : Str) (now : ℚ) : ControllerState × Except StartError Str :=
  if s.is_processing then (s, .error .alreadyRunning)
  else
    let valid_emails := validNormalized emails
    if valid_emails.isEmpty then (s, .error .noValidInput)
    else
      let unique_emails := dedupLoop [] valid_emails
      ({ queue := unique_emails
         results := []
         progress :=
           { total := unique_emails.length, completed := 0,
             current_email := [], status := "running".data,
             start_time := some now, estimated_completion := none,
             batch_id := some newId }
         current_batch_id := some newId
         is_processing := true
         is_paused := false
         should_stop := false }, .ok newId)

/-! ### `pause_batch` / `resume_batch` / `stop_batch` (src/app.py:279-304) -/

/-- `BatchProcessor.pause_batch` (src/app.py:279-285). -/
def pause_batch (s : ControllerState) : ControllerState :=
  if s.is_processing then
    { s with is_paused := true,
             progress := { s.progress with status := "paused".data } }
  else s

/-- `BatchProcessor.resume_batch` (src/app.py:287-293). -/
def resume_batch (s : ControllerState) : ControllerState :=
  if s.is_processing && s.is_paused then
    { s with is_paused := false,
             progress := { s.progress with status := "running".data } }
  else s

/-- `BatchProcessor.stop_batch` (src/app.py:295-304).  The `join` with a
one-second timeout does not by itself terminate the worker; the worker's
own exit is the separate `workerFinish` transition below. -/
def stop_batch (s : ControllerState) : ControllerState :=
  if s.is_processing then
    { s with should_stop := true,
             progress := { s.progress with status := "stopped".data } }
  else s

/-! ### `_update_estimated_completion` (src/app.py:413-426) -/

/-- `BatchProcessor._update_estimated_completion` (src/app.py:413-426).
`now` is the current time; `elapsed = now - start_time`,
`rate = completed / elapsed` (or `0` when `elapsed ≤ 0`), and the field
is set to `now + remaining / rate` only when `rate > 0` — otherwise the
progress dict is left untouched. -/
def update_estimated_completion (p : Progress) (now : ℚ) : Progress :=
  if p.completed > 0 then
    match p.start_time with
    | none => p
    | some start_time =>
      let elapsed := now - start_time
      let rate : ℚ := if elapsed > 0 then (p.completed : ℚ) / elapsed else 0
      let remaining : ℚ := (p.total : ℚ) - (p.completed : ℚ)
      if rate > 0 then
        { p with estimated_completion := some (now + remaining / rate) }
      else p
  else p

/-! ### The worker loop `_process_batch` (src/app.py:306-370)

The thread is modelled by explicit transitions: one per completed item,
one for the loop exit, and one for the outer exception handler.  The
inter-item sleep on src/app.py:339-341 is modelled by `inter_item_sleep`
on the post-item state. -/

/-- One full worker iteration that processes an item
(src/app.py:317-337): dequeue, set `current_email`, append the item's
`ScanResult`, increment `completed`, recompute the ETA.  `r` is the
result produced by `_scan_single_email` for the dequeued email and `now`
the time at the ETA computation.  If the queue is empty the iteration
does not happen. -/
def worker_item_step (s : ControllerState) (r : ScanResult) (now : ℚ) :
    ControllerState :=
  match s.queue with
  | [] => s
  | email :: rest =>
    { s with
      queue := rest
      results := s.results ++ [r]
      progress :=
        update_estimated_completion
          { s.progress with current_email := email,
                            completed := s.progress.completed + 1 } now }

/-- The inter-item rate-limit pause (src/app.py:339-341), evaluated on
the state after an item: `if not self.scan_queue.empty(): time.sleep(self.rate_limit_delay)`.
The stop flag is in scope but not consulted.  Returns the time slept. -/
def inter_item_sleep (s : ControllerState) (delay : ℚ) : ℚ :=
  if s.queue.isEmpty then 0 else delay

/-- The loop exit of src/app.py:349-361: terminal status `'stopped'` if
cancellation was requested else `'completed'`, `current_email` cleared,
`is_processing` reset. -/
def worker_finish (s : ControllerState) : ControllerState :=
  { s with
    progress :=
      { s.progress with
        status := if s.should_stop then "stopped".data else "completed".data
        current_email := [] }
    is_processing := false }

/-- The outer exception handler of src/app.py:365-370. -/
def worker_error (s : ControllerState) : ControllerState :=
  { s with
    progress := { s.progress with status := "error".data }
    is_processing := false }

/-! ### Reachability

One step of the system: a control call from any thread, or one worker
transition.  Worker transitions carry the liveness guard
`is_processing = true` (the thread exists exactly while the flag is
set); the per-item transition additionally requires the checks at the
top of the loop (src/app.py:309-315) to have passed. -/

inductive Step : ControllerState → ControllerState → Prop where
  | start (s : ControllerState) (emails : List Str) (newId : Str) (now : ℚ) :
      Step s (start_batch_scan s emails newId now).1
  | pause (s : ControllerState) : Step s (pause_batch s)
  | resume (s : ControllerState) : Step s (resume_batch s)
  | stop (s : ControllerState) : Step s (stop_batch s)
  | workerItem (s : ControllerState) (r : ScanResult) (now : ℚ)
      (hproc : s.is_processing = true) (hstop : s.should_stop = false)
      (hpause : s.is_paused = false) (hq : s.queue ≠ []) :
      Step s (worker_item_step s r now)
  | workerFinish (s : ControllerState) (hproc : s.is_processing = true)
      (hexit : s.queue = [] ∨ s.should_stop = true) :
      Step s (worker_finish s)
  | workerError (s : ControllerState) (hproc : s.is_processing = true) :
      Step s (worker_error s)

/-- States reachable from the freshly constructed `BatchProcessor`. -/
inductive Reachable : ControllerState → Prop where
  | init : Reachable initState
  | step {s s' : ControllerState} : Reachable s → Step s s' → Reachable s'

/-! ### `get_batch_statistics` (src/app.py:433-476)

`defaultdict(int)` counters filled in iteration order are modelled as
association lists in insertion order (`bump`/`countsOf`); the Python
`sorted(..., key=lambda x: x[1], reverse=True)` is a stable descending
sort on the count (`sortDesc`). -/

/-- `counter[k] += 1` on an insertion-ordered counter: bump the existing
entry, or append `(k, 1)` at the end. -/
def bump : List (Str × Nat) → Str → List (Str × Nat)
  | [], k => [(k, 1)]
  | (k', c) :: rest, k =>
    if k = k' then (k', c + 1) :: rest else (k', c) :: bump rest k

/-- A `defaultdict(int)` counter filled by iterating over `stream`. -/
def countsOf (stream : List Str) : List (Str × Nat) :=
  stream.foldl bump []

/-- The distinct elements of a list in order of first occurrence
(specification-side companion of `countsOf` and `dedupLoop`). -/
def firstOccs {α : Type} [DecidableEq α] : List α → List α
  | [] => []
  | x :: xs => x :: firstOccs (xs.filter fun y => y ≠ x)
termination_by l => l.length
decreasing_by
  simp only [List.length_cons]
  exact Nat.lt_succ_of_le (List.length_filter_le _ _)

/-- Stable descending insertion (by the count component): `x` passes
only entries with a strictly larger count, so among equal counts earlier
stream elements stay first — the semantics of Python's stable
`sorted(..., reverse=True)`. -/
def insertDesc {α : Type} (x : α × Nat) : List (α × Nat) → List (α × Nat)
  | [] => [x]
  | y :: ys => if y.2 > x.2 then y :: insertDesc x ys else x :: y :: ys

/-- Stable descending sort by the count component. -/
def sortDesc {α : Type} : List (α × Nat) → List (α × Nat)
  | [] => []
  | x :: xs => insertDesc x (sortDesc xs)

/-- The stats dict built by `get_batch_statistics` (src/app.py:441-476).
`severity_breakdown` and `top_breaches` are insertion-ordered dicts,
kept as association lists; `processing_time` is present only when
`start_time` is set. -/
structure BatchStats where
  total_emails : Nat
  clean_emails : Nat
  compromised_emails : Nat
  error_emails : Nat
  total_breaches : Nat
  total_pastes : Nat
  processing_time : Option ℚ
  severity_breakdown : List (Str × Nat)
  top_breaches : List (Str × Nat)
deriving DecidableEq

/-- `BatchProcessor.get_batch_statistics` (src/app.py:433-476) over the
results snapshot, the snapshot's `start_time` and the current time.
Returns `none` for the `{}` sentinel of src/app.py:436-437. -/
def get_batch_statistics (results : List ScanResult)
    (start_time : Option ℚ) (now : ℚ) : Option BatchStats :=
  if results.isEmpty then none
  else some
    { total_emails := results.length
      clean_emails := results.countP fun r => r.status = "clean".data
      compromised_emails := results.countP fun r => r.status = "compromised".data
      error_emails := results.countP fun r => r.status = "error".data
      total_breaches := (results.map fun r => r.breach_count).sum
      total_pastes := (results.map fun r => r.paste_count).sum
      processing_time := start_time.map fun st => now - st
      severity_breakdown :=
        countsOf ((results.filter fun r => r.status = "compromised".data).map
          fun r => r.severity.getD "unknown".data)
      top_breaches :=
        (sortDesc (countsOf ((results.map fun r =>
          r.breaches.map fun b => b.Name.getD "Unknown".data).flatten))).take 10 }

/-! ### Specification-side definitions

These are written from the specification's words (not from the source)
and are used to state claims as written, and to exhibit counterexamples
where the source disagrees. -/

/-- The high-risk category set as the specification names it:
"passwords, credit cards, government identifiers".  Used only to state
claim C3 as written. -/
def claimHighRiskSet : List Str :=
  ["passwords".data, "credit cards".data, "government identifiers".data]

/-- Claim C3's severity ladder as written: `critical` when some record's
category labels intersect `claimHighRiskSet` (set intersection on whole
labels), with the other tiers as in the claim. -/
def severityClaimC3 (breaches : List Breach) : Str :=
  if breaches.isEmpty then "clean".data
  else if (breaches.any fun b => b.DataClasses.any fun dc => claimHighRiskSet.contains dc) ∨
      breaches.countP (fun b => b.IsSensitive) > 2 then "critical".data
  else if breaches.countP (fun b => b.IsVerified) > 3 ∨ breaches.length > 5 then "high".data
  else if breaches.length > 2 then "medium".data
  else "low".data

/-- The severity ladder amended to the source's actual `critical` test:
some record whose lower-cased, space-joined category labels contain one
of the three indicator strings as a substring (existential form; the
source counts such records and compares the count with zero). -/
def severityAmendedC3 (breaches : List Breach) : Str :=
  if breaches.isEmpty then "clean".data
  else if breaches.any isHighRiskBreach ∨
      breaches.countP (fun b => b.IsSensitive) > 2 then "critical".data
  else if breaches.countP (fun b => b.IsVerified) > 3 ∨ breaches.length > 5 then "high".data
  else if breaches.length > 2 then "medium".data
  else "low".data

/-- Claim C7's inter-item sleep as written: sleep only when the queue is
non-empty AND stop has not been requested. -/
def claimSleepC7 (s : ControllerState) (delay : ℚ) : ℚ :=
  if ¬s.queue.isEmpty ∧ s.should_stop = false then delay else 0

/-- Claim C5's ETA projection as written:
`elapsed / completed * remaining`, `0` when `completed == 0`. -/
def claimedEtaC5 (elapsed : ℚ) (completed remaining : Nat) : ℚ :=
  if completed = 0 then 0 else elapsed / (completed : ℚ) * (remaining : ℚ)

/-- The severity values of the compromised results only, in result
order — the stream over which the spec says the severity-tier histogram
is computed. -/
def compromisedSeverities (results : List ScanResult) : List Str :=
  (results.filter fun r => r.status = "compromised".data).map
    fun r => r.severity.getD "unknown".data

/-- All breach source names across the results, in encounter order — the
stream over which the spec says `top_breaches` frequencies are taken. -/
def allBreachNames (results : List ScanResult) : List Str :=
  (results.map fun r => r.breaches.map fun b => b.Name.getD "Unknown".data).flatten

/-- Specification-side counter: the distinct elements of a stream in
first-encounter order, each paired with its total frequency. -/
def firstEncounterCounts (stream : List Str) : List (Str × Nat) :=
  (firstOccs stream).map fun k => (k, stream.count k)

/-! ### Concrete states and records used in counterexamples and witnesses -/

/-- State after `start_batch_scan` with one valid email, from fresh. -/
def sRun : ControllerState :=
  (start_batch_scan initState ["a@x.com".data] "b1".data 0).1

/-- `stop_batch` issued on `sRun` while the worker is still alive
(the `join(timeout=1)` in `stop_batch` has timed out). -/
def sStopped : ControllerState := stop_batch sRun

/-- State after `start_batch_scan` with two valid emails, from fresh. -/
def sRun2 : ControllerState :=
  (start_batch_scan initState ["a@x.com".data, "b@x.com".data] "b2".data 0).1

/-- A clean `ScanResult` for the first email of `sRun2`. -/
def rClean : ScanResult :=
  { email := "a@x.com".data, timestamp := "t0".data, status := "clean".data,
    breaches := [], breach_count := 0, severity := some "clean".data,
    pastes := [], paste_count := 0, error := none }

/-- `sRun2` after the worker completed its first item (at time 1). -/
def sMid : ControllerState := worker_item_step sRun2 rClean 1

/-- `stop_batch` issued right after the first item completed, before the
worker reaches the inter-item sleep of src/app.py:339-341. -/
def sMidStopped : ControllerState := stop_batch sMid

/-- A compromised `ScanResult` with two exposure records from the same
source, used to exercise the statistics aggregator. -/
def rCompromised : ScanResult :=
  { email := "c@x.com".data, timestamp := "t1".data,
    status := "compromised".data,
    breaches :=
      [ { IsVerified := true, IsSensitive := false,
          DataClasses := ["email addresses".data], Name := some "B1".data },
        { IsVerified := false, IsSensitive := false,
          DataClasses := ["usernames".data], Name := some "B1".data } ],
    breach_count := 2, severity := some "low".data,
    pastes := [], paste_count := 0, error := none }

/-- The statistics record expected for the snapshot `[rCompromised]`
with no start time, at time 0. -/
def statsCompromised : BatchStats :=
  { total_emails := 1, clean_emails := 0, compromised_emails := 1,
    error_emails := 0, total_breaches := 2, total_pastes := 0,
    processing_time := none,
    severity_breakdown := [("low".data, 1)],
    top_breaches := [("B1".data, 2)] }

/-- A progress record one completed item into a five-item batch. -/
def pMidway : Progress :=
  { total := 5, completed := 1, current_email := "a@x.com".data,
    status := "running".data, start_time := some 0,
    estimated_completion := none, batch_id := some "b1".data }

/-! ## Helper lemmas -/

theorem firstOccs_nil {α : Type} [DecidableEq α] : firstOccs ([] : List α) = [] := by
  simp [firstOccs]

theorem firstOccs_cons {α : Type} [DecidableEq α] (x : α) (xs : List α) :
    firstOccs (x :: xs) = x :: firstOccs (xs.filter fun y => y ≠ x) := by
  simp [firstOccs]

theorem mem_firstOccs {α : Type} [DecidableEq α] :
    ∀ (l : List α) (a : α), a ∈ firstOccs l ↔ a ∈ l
  | [], a => by simp [firstOccs_nil]
  | x :: xs, a => by
    rw [firstOccs_cons, List.mem_cons, List.mem_cons,
      mem_firstOccs (xs.filter fun y => y ≠ x) a, List.mem_filter]
    constructor
    · rintro (rfl | ⟨h, _⟩)
      · exact Or.inl rfl
      · exact Or.inr h
    · rintro (rfl | h)
      · exact Or.inl rfl
      · by_cases hax : a = x
        · exact Or.inl hax
        · exact Or.inr ⟨h, by simpa using hax⟩
termination_by l => l.length
decreasing_by
  simp only [List.length_cons]
  exact Nat.lt_succ_of_le (List.length_filter_le _ _)

theorem nodup_firstOccs {α : Type} [DecidableEq α] :
    ∀ l : List α, (firstOccs l).Nodup
  | [] => by simp [firstOccs_nil]
  | x :: xs => by
    rw [firstOccs_cons]
    refine List.nodup_cons.2 ⟨?_, nodup_firstOccs (xs.filter fun y => y ≠ x)⟩
    intro hx
    have := (mem_firstOccs _ x).1 hx
    have := (List.mem_filter.1 this).2
    simp at this
termination_by l => l.length
decreasing_by
  simp only [List.length_cons]
  exact Nat.lt_succ_of_le (List.length_filter_le _ _)

theorem dedupLoop_eq_firstOccs_filter (l : List Str) :
    ∀ seen : List Str, dedupLoop seen l = firstOccs (l.filter fun e => e ∉ seen) := by
  induction l with
  | nil => intro seen; simp [dedupLoop, firstOccs_nil]
  | cons e es ih =>
    intro seen
    by_cases hmem : e ∈ seen
    · rw [dedupLoop, if_pos hmem, ih seen, List.filter_cons_of_neg (by simpa using hmem)]
    · rw [dedupLoop, if_neg hmem, ih (e :: seen),
        List.filter_cons_of_pos (by simpa using hmem), firstOccs_cons]
      congr 1
      rw [List.filter_filter]
      apply congrArg firstOccs
      apply List.filter_congr
      intro a _
      by_cases hae : a = e <;> by_cases has : a ∈ seen <;>
        simp [hae, has, List.mem_cons]

theorem dedupLoop_nil_eq_firstOccs (l : List Str) :
    dedupLoop [] l = firstOccs l := by
  rw [dedupLoop_eq_firstOccs_filter l []]
  congr 1
  apply List.filter_eq_self.2
  intro a _
  simp

theorem bump_eq (x : Str) :
    ∀ acc : List (Str × Nat), (acc.map Prod.fst).Nodup →
      bump acc x =
        acc.map (fun p => (p.1, p.2 + if p.1 = x then 1 else 0)) ++
          (if x ∈ acc.map Prod.fst then [] else [(x, 1)]) := by
  intro acc
  induction acc with
  | nil => intro _; simp [bump]
  | cons hd tl ih =>
    intro hnd
    obtain ⟨k', c⟩ := hd
    rw [List.map_cons] at hnd
    have hnd' := List.nodup_cons.1 hnd
    by_cases hxk : x = k'
    · subst hxk
      rw [bump, if_pos rfl]
      have hx_tl : x ∉ tl.map Prod.fst := hnd'.1
      have hmap : tl.map (fun p => (p.1, p.2 + if p.1 = x then 1 else 0)) = tl := by
        have : tl.map (fun p => (p.1, p.2 + if p.1 = x then 1 else 0)) = tl.map id := by
          apply List.map_congr_left
          intro p hp
          have hne : p.1 ≠ x := fun h => hx_tl (h ▸ List.mem_map_of_mem Prod.fst hp)
          simp [hne]
        simpa using this
      simp [hmap]
    · rw [bump, if_neg hxk, ih hnd'.2]
      have hk'x : ¬ k' = x := fun h => hxk h.symm
      by_cases hmem : x ∈ tl.map Prod.fst <;> simp [hk'x, hmem, hxk]

theorem bump_keys (x : Str) (acc : List (Str × Nat))
    (hnd : (acc.map Prod.fst).Nodup) :
    (bump acc x).map Prod.fst =
      if x ∈ acc.map Prod.fst then acc.map Prod.fst
      else acc.map Prod.fst ++ [x] := by
  rw [bump_eq x acc hnd]
  by_cases h : x ∈ acc.map Prod.fst <;>
    simp [h, List.map_map, Function.comp_def]

theorem bump_keys_nodup (x : Str) (acc : List (Str × Nat))
    (hnd : (acc.map Prod.fst).Nodup) :
    ((bump acc x).map Prod.fst).Nodup := by
  rw [bump_keys x acc hnd]
  split_ifs with h
  · exact hnd
  · simp [List.nodup_append, hnd, h]

theorem foldl_bump_eq (stream : List Str) :
    ∀ acc : List (Str × Nat), (acc.map Prod.fst).Nodup →
      stream.foldl bump acc =
        acc.map (fun p => (p.1, p.2 + stream.count p.1)) ++
          (firstOccs (stream.filter fun k => k ∉ acc.map Prod.fst)).map
            (fun k => (k, stream.count k)) := by
  induction stream with
  | nil =>
    intro acc _
    simp [firstOccs_nil]
  | cons x xs ih =>
    intro acc hnd
    rw [List.foldl_cons, ih (bump acc x) (bump_keys_nodup x acc hnd)]
    by_cases hx : x ∈ acc.map Prod.fst
    · rw [bump_keys x acc hnd, if_pos hx, bump_eq x acc hnd, if_pos hx,
        List.append_nil, List.map_map,
        List.filter_cons_of_neg (by simpa using hx)]
      congr 1
      · apply List.map_congr_left
        intro p _
        simp only [Function.comp_apply, List.count_cons, Prod.mk.injEq, true_and]
        by_cases hpx : p.1 = x
        · simp [hpx]
          omega
        · have hxp : ¬ x = p.1 := fun h => hpx h.symm
          simp [hpx, hxp, beq_iff_eq]
      · apply List.map_congr_left
        intro k hk
        have hk2 := (List.mem_filter.1 ((mem_firstOccs _ k).1 hk)).2
        rw [decide_eq_true_eq] at hk2
        have hkx : ¬ k = x := fun h => hk2 (h ▸ hx)
        simp [List.count_cons, hkx]
    · rw [bump_keys x acc hnd, if_neg hx, bump_eq x acc hnd, if_neg hx,
        List.filter_cons_of_pos (by simpa using hx), firstOccs_cons]
      simp only [List.map_append, List.map_map, List.map_cons, List.map_nil,
        List.cons_append, List.nil_append, List.singleton_append,
        List.append_assoc]
      congr 1
      · apply List.map_congr_left
        intro p hp
        have hne : ¬ p.1 = x := fun h => hx (h ▸ List.mem_map_of_mem Prod.fst hp)
        simp [Function.comp_apply, List.count_cons, hne]
      · congr 1
        · simp [List.count_cons, Nat.add_comm]
        · rw [List.filter_filter]
          have hfil :
              (xs.filter fun k => k ∉ acc.map Prod.fst ++ [x]) =
                xs.filter (fun a =>
                  decide (a ≠ x) && decide (a ∉ acc.map Prod.fst)) := by
            apply List.filter_congr
            intro a _
            by_cases hax : a = x <;> by_cases has : a ∈ acc.map Prod.fst <;>
              simp [hax, has]
          rw [hfil]
          apply List.map_congr_left
          intro k hk
          have hk2 := (List.mem_filter.1 ((mem_firstOccs _ k).1 hk)).2
          rw [Bool.and_eq_true, decide_eq_true_eq, decide_eq_true_eq] at hk2
          simp [List.count_cons, hk2.1]

/-- The `defaultdict(int)` counter, characterised: keys in order of first
encounter, each mapped to its total number of occurrences. -/
theorem countsOf_eq (stream : List Str) :
    countsOf stream = (firstOccs stream).map (fun k => (k, stream.count k)) := by
  rw [countsOf, foldl_bump_eq stream [] (by simp)]
  simp

theorem mem_insertDesc {α : Type} (x y : α × Nat) :
    ∀ l : List (α × Nat), y ∈ insertDesc x l ↔ y = x ∨ y ∈ l := by
  intro l
  induction l with
  | nil => simp [insertDesc]
  | cons z zs ih =>
    rw [insertDesc]
    split_ifs with hz
    · rw [List.mem_cons, ih, List.mem_cons]
      tauto
    · simp [List.mem_cons]

theorem sorted_insertDesc {α : Type} (x : α × Nat) (l : List (α × Nat))
    (h : List.Sorted (fun a b : α × Nat => b.2 ≤ a.2) l) :
    List.Sorted (fun a b : α × Nat => b.2 ≤ a.2) (insertDesc x l) := by
  induction l with
  | nil => simp [insertDesc]
  | cons z zs ih =>
    rw [List.sorted_cons] at h
    rw [insertDesc]
    split_ifs with hz
    · rw [List.sorted_cons]
      refine ⟨?_, ih h.2⟩
      intro b hb
      rcases (mem_insertDesc x b zs).1 hb with rfl | hbz
      · exact le_of_lt hz
      · exact h.1 b hbz
    · rw [List.sorted_cons]
      refine ⟨?_, List.sorted_cons.2 h⟩
      intro b hb
      rcases List.mem_cons.1 hb with rfl | hbz
      · exact Nat.le_of_not_lt hz
      · exact le_trans (h.1 b hbz) (Nat.le_of_not_lt hz)

theorem sorted_sortDesc {α : Type} (l : List (α × Nat)) :
    List.Sorted (fun a b : α × Nat => b.2 ≤ a.2) (sortDesc l) := by
  induction l with
  | nil => simp [sortDesc]
  | cons x xs ih => exact sorted_insertDesc x (sortDesc xs) ih

theorem filter_insertDesc {α : Type} (c : Nat) (x : α × Nat) (l : List (α × Nat)) :
    (insertDesc x l).filter (fun p => p.2 = c) =
      if x.2 = c then x :: l.filter (fun p => p.2 = c)
      else l.filter (fun p => p.2 = c) := by
  induction l with
  | nil => by_cases hx : x.2 = c <;> simp [insertDesc, hx]
  | cons z zs ih =>
    rw [insertDesc]
    by_cases hz : z.2 > x.2
    · rw [if_pos hz]
      by_cases hzc : z.2 = c
      · have hxc : ¬ x.2 = c := by
          intro h
          rw [hzc, ← h] at hz
          exact lt_irrefl _ hz
        rw [List.filter_cons_of_pos (by simpa using hzc), ih, if_neg hxc,
          if_neg hxc, List.filter_cons_of_pos (by simpa using hzc)]
      · rw [List.filter_cons_of_neg (by simpa using hzc), ih]
        by_cases hxc : x.2 = c
        · rw [if_pos hxc, if_pos hxc,
            List.filter_cons_of_neg (by simpa using hzc)]
        · rw [if_neg hxc, if_neg hxc,
            List.filter_cons_of_neg (by simpa using hzc)]
    · rw [if_neg hz]
      by_cases hxc : x.2 = c <;> by_cases hzc : z.2 = c <;>
        simp [List.filter_cons, hxc, hzc]

theorem filter_sortDesc {α : Type} (c : Nat) (l : List (α × Nat)) :
    (sortDesc l).filter (fun p => p.2 = c) = l.filter (fun p => p.2 = c) := by
  induction l with
  | nil => simp [sortDesc]
  | cons x xs ih =>
    rw [sortDesc, filter_insertDesc]
    by_cases hx : x.2 = c <;> simp [List.filter_cons, hx, ih]

theorem perm_insertDesc {α : Type} (x : α × Nat) (l : List (α × Nat)) :
    List.Perm (insertDesc x l) (x :: l) := by
  induction l with
  | nil => rfl
  | cons z zs ih =>
    rw [insertDesc]
    split_ifs with hz
    · exact ((ih.cons z).trans (List.Perm.swap x z zs))
    · rfl

theorem perm_sortDesc {α : Type} (l : List (α × Nat)) :
    List.Perm (sortDesc l) l := by
  induction l with
  | nil => rfl
  | cons x xs ih => exact (perm_insertDesc x (sortDesc xs)).trans (ih.cons x)

theorem retryDelay_bounds (h : Option Str) :
    1 ≤ retryDelay h ∧ retryDelay h ≤ 60 := by
  cases h with
  | none => dsimp only [retryDelay]; norm_num
  | some s =>
    dsimp only [retryDelay]
    split_ifs with he
    · norm_num
    · cases hp : pyParseInt s with
      | none => simp [hp]
      | some v =>
        simp only [hp]
        refine ⟨le_max_left _ _, ?_⟩
        exact max_le (by norm_num) (min_le_right _ _)

theorem get_with_retry_of_429 {β : Type} (r1 : Response β) (e2 : HttpResult β)
    (h : r1.status_code = 429) :
    get_with_retry (.ok r1) e2 = (e2, 2, retryDelay r1.retry_after) := by
  simp [get_with_retry, h]

theorem start_batch_scan_of_processing (s : ControllerState)
    (emails : List Str) (newId : Str) (now : ℚ) (h : s.is_processing = true) :
    start_batch_scan s emails newId now = (s, .error .alreadyRunning) := by
  simp [start_batch_scan, h]

theorem start_batch_scan_of_no_valid (s : ControllerState)
    (emails : List Str) (newId : Str) (now : ℚ)
    (h1 : s.is_processing = false) (h2 : validNormalized emails = []) :
    start_batch_scan s emails newId now = (s, .error .noValidInput) := by
  simp [start_batch_scan, h1, h2]

theorem start_batch_scan_fst_cases (s : ControllerState)
    (emails : List Str) (newId : Str) (now : ℚ) :
    (start_batch_scan s emails newId now).1 = s ∨
      (start_batch_scan s emails newId now).1.is_processing = true := by
  by_cases h1 : s.is_processing = true
  · left
    rw [start_batch_scan_of_processing s emails newId now h1]
  · by_cases h2 : validNormalized emails = []
    · left
      rw [start_batch_scan_of_no_valid s emails newId now (by simpa using h1) h2]
    · right
      simp [start_batch_scan, h1, h2]

theorem update_estimated_completion_fields (p : Progress) (now : ℚ) :
    (update_estimated_completion p now).total = p.total ∧
    (update_estimated_completion p now).completed = p.completed ∧
    (update_estimated_completion p now).current_email = p.current_email ∧
    (update_estimated_completion p now).status = p.status ∧
    (update_estimated_completion p now).start_time = p.start_time ∧
    (update_estimated_completion p now).batch_id = p.batch_id := by
  rw [update_estimated_completion]
  split_ifs with h1
  · cases hst : p.start_time with
    | none => simp [hst]
    | some st =>
      dsimp only
      split_ifs <;> simp [hst]
  · simp

/-- One-step preservation of the invariant behind claim C8: a status of
`running` or `paused` implies the worker-liveness flag. -/
theorem step_preserves_active_is_processing {s s' : ControllerState}
    (hstep : Step s s')
    (ih : (s.progress.status = "running".data ∨ s.progress.status = "paused".data) →
      s.is_processing = true) :
    (s'.progress.status = "running".data ∨ s'.progress.status = "paused".data) →
      s'.is_processing = true := by
  cases hstep with
  | start emails newId now =>
    rcases start_batch_scan_fst_cases s emails newId now with heq | hproc
    · rw [heq]; exact ih
    · intro _; exact hproc
  | pause =>
    rw [pause_batch]
    split_ifs with h
    · intro _; exact h
    · exact ih
  | resume =>
    rw [resume_batch]
    split_ifs with h
    · intro _
      rw [Bool.and_eq_true] at h
      exact h.1
    · exact ih
  | stop =>
    rw [stop_batch]
    split_ifs with h
    · intro _; exact h
    · exact ih
  | workerItem r now hproc hstop hpause hq =>
    rw [worker_item_step]
    cases hq2 : s.queue with
    | nil => exact ih
    | cons e rest => intro _; exact hproc
  | workerFinish hproc hexit =>
    rw [worker_finish]
    rintro (h | h) <;> dsimp at h <;>
      (cases hss : s.should_stop <;> rw [hss] at h <;> exact absurd h (by decide))
  | workerError hproc =>
    rw [worker_error]
    rintro (h | h) <;> dsimp at h <;> exact absurd h (by decide)

/-- The key reachability invariant behind claim C8: whenever the
observable status is `running` or `paused`, the worker-liveness flag
`is_processing` is set, so `start_batch_scan`'s guard fires. -/
theorem reachable_active_is_processing :
    ∀ s : ControllerState, Reachable s →
      (s.progress.status = "running".data ∨ s.progress.status = "paused".data) →
      s.is_processing = true := by
  intro s hs
  induction hs with
  | init => rintro (h | h) <;> exact absurd h (by decide)
  | step hr hstep ih => exact step_preserves_active_is_processing hstep ih

/-! ## Claim theorems -/

/-- C10: for every identifier, a success (HTTP 200) response whose record
list is empty makes `check_breaches` return status `clean` with severity
`clean` and count 0 — literally the same outcome record as a not-found
(404) response, issuing one request and sleeping 0; a found-but-empty
record list is never reported as `compromised`. -/
theorem c10_success_empty_is_clean (h h' : Option Str)
    (e2 e2' : HttpResult (List Breach)) :
    check_breaches (.ok ⟨200, h, []⟩) e2 =
      ({ status := "clean".data, breaches := [], breach_count := 0,
         severity := some "clean".data, error := none, retry_after := none },
       1, 0) ∧
    check_breaches (.ok ⟨404, h', []⟩) e2' =
      ({ status := "clean".data, breaches := [], breach_count := 0,
         severity := some "clean".data, error := none, retry_after := none },
       1, 0) := by
  constructor <;> rfl

/-- C4: on a first rate-limited (429) response the lookup issues exactly
one retry — two requests total — after sleeping `retryDelay`, which is
the server-advised delay if present else 60, clamped to `[1, 60]`; if
the reissued request is rate-limited again, `check_breaches` returns an
`error` outcome with the distinguished reason `'Rate limit exceeded'`
and the request count stays 2 (no further retry). -/
theorem c4_rate_limited_single_retry (r1 : Response (List Breach))
    (e2 : HttpResult (List Breach)) (h429 : r1.status_code = 429) :
    (check_breaches (.ok r1) e2).2.1 = 2 ∧
    (check_breaches (.ok r1) e2).2.2 = retryDelay r1.retry_after ∧
    1 ≤ retryDelay r1.retry_after ∧ retryDelay r1.retry_after ≤ 60 ∧
    (∀ r2 : Response (List Breach), e2 = .ok r2 → r2.status_code = 429 →
      (check_breaches (.ok r1) e2).1.status = "error".data ∧
      (check_breaches (.ok r1) e2).1.error = some "Rate limit exceeded".data ∧
      (check_breaches (.ok r1) e2).1.retry_after = r2.retry_after) := by
  have hg := get_with_retry_of_429 r1 e2 h429
  refine ⟨?_, ?_, (retryDelay_bounds r1.retry_after).1,
    (retryDelay_bounds r1.retry_after).2, ?_⟩
  · simp [check_breaches, hg]
  · simp [check_breaches, hg]
  · rintro r2 rfl h2
    refine ⟨?_, ?_, ?_⟩ <;>
      simp [check_breaches, hg, classify_breach_response, h2]

/-- Witness for C4: first response 429 with `Retry-After: 5`, retried
response again 429 — two requests, a 5 time-unit sleep, and a terminal
rate-limited `error` outcome. -/
theorem c4_witness :
    (check_breaches (.ok ⟨429, some "5".data, []⟩)
        (.ok (⟨429, none, []⟩ : Response (List Breach)))).2.1 = 2 ∧
    (check_breaches (.ok ⟨429, some "5".data, []⟩)
        (.ok (⟨429, none, []⟩ : Response (List Breach)))).2.2 = 5 ∧
    (check_breaches (.ok ⟨429, some "5".data, []⟩)
        (.ok (⟨429, none, []⟩ : Response (List Breach)))).1.status = "error".data ∧
    (check_breaches (.ok ⟨429, some "5".data, []⟩)
        (.ok (⟨429, none, []⟩ : Response (List Breach)))).1.error =
      some "Rate limit exceeded".data := by
  have h := c4_rate_limited_single_retry ⟨429, some "5".data, []⟩
    (.ok ⟨429, none, []⟩) rfl
  refine ⟨h.1, ?_, (h.2.2.2.2 _ rfl rfl).1, (h.2.2.2.2 _ rfl rfl).2.1⟩
  rw [h.2.1]
  decide

/-- C9 counterexample: a server-error (500) outcome, a transport failure,
and a not-found (404) zero-paste success all yield literally the same
`PasteOutcome` record — contrary to the claim, no typed error indication
distinguishes a failed `check_pastes` from a success with zero pastes. -/
theorem c9_counterexample :
    (check_pastes (.ok ⟨500, none, []⟩) (.ok ⟨500, none, []⟩)).1 =
      (check_pastes (.ok ⟨404, none, []⟩) (.ok ⟨404, none, []⟩)).1 ∧
    (check_pastes (.exn "connection reset".data)
        (.exn "connection reset".data)).1 =
      (check_pastes (.ok ⟨404, none, []⟩) (.ok ⟨404, none, []⟩)).1 ∧
    (check_pastes (.ok ⟨404, none, []⟩) (.ok ⟨404, none, []⟩)).1 =
      { pastes := [], paste_count := 0 } :=
  ⟨rfl, rfl, rfl⟩

/-- C9 amended: no exception escapes `check_pastes` (every transport
outcome yields a `PasteOutcome`), but failures carry no error
indication: unless the effective response has status 200, the result is
exactly the zero-paste record `{pastes: [], paste_count: 0}`, the same
record a zero-paste success returns. -/
theorem c9_amended_failures_swallowed (e1 e2 : HttpResult (List Str)) :
    (∃ r : Response (List Str), (get_with_retry e1 e2).1 = .ok r ∧
        r.status_code = 200 ∧
        (check_pastes e1 e2).1 =
          { pastes := r.body, paste_count := r.body.length }) ∨
    (check_pastes e1 e2).1 = { pastes := [], paste_count := 0 } := by
  cases hg : (get_with_retry e1 e2).1 with
  | exn m =>
    right
    simp [check_pastes, hg, classify_paste_response]
  | ok r =>
    by_cases h200 : r.status_code = 200
    · left
      exact ⟨r, rfl, h200,
        by simp [check_pastes, hg, classify_paste_response, h200]⟩
    · right
      simp [check_pastes, hg, classify_paste_response, h200]

/-- C3 counterexample: the claim's rule — `critical` iff some record's
category labels intersect {passwords, credit cards, government
identifiers} (or >2 sensitive) — disagrees with the code on two concrete
inputs: a single record labelled `government identifiers` is classified
`low` by the code but `critical` by the claim, and a single record with
labels `credit` and `cards` (which the code's space-joined substring
test matches as `credit cards`) is classified `critical` by the code but
`low` by the claim. -/
theorem c3_counterexample :
    calculate_severity
        [{ IsVerified := false, IsSensitive := false,
           DataClasses := ["government identifiers".data], Name := none }] =
      "low".data ∧
    severityClaimC3
        [{ IsVerified := false, IsSensitive := false,
           DataClasses := ["government identifiers".data], Name := none }] =
      "critical".data ∧
    calculate_severity
        [{ IsVerified := false, IsSensitive := false,
           DataClasses := ["credit".data, "cards".data], Name := none }] =
      "critical".data ∧
    severityClaimC3
        [{ IsVerified := false, IsSensitive := false,
           DataClasses := ["credit".data, "cards".data], Name := none }] =
      "low".data := by
  refine ⟨by decide, by decide, by decide, by decide⟩

/-- C3 amended: the classifier applies the rules in order with first
match winning — `clean` for the empty list; `critical` if some record's
lower-cased, space-joined category labels contain one of the substrings
`passwords`, `credit cards`, `social security numbers`, or more than 2
records are flagged sensitive; `high` if more than 3 records are flagged
verified or more than 5 records; `medium` if more than 2 records;
otherwise `low`. -/
theorem c3_amended_severity_rules (breaches : List Breach) :
    calculate_severity breaches = severityAmendedC3 breaches := by
  have hiff : (breaches.countP isHighRiskBreach > 0) ↔
      (breaches.any isHighRiskBreach = true) := by
    rw [gt_iff_lt, List.countP_pos_iff, List.any_eq_true]
  rw [calculate_severity, severityAmendedC3]
  simp only [hiff]

/-- C1 counterexample: in the reachable state where `stop_batch` was
called while the worker is still alive (`stop_batch`'s one-second join
can time out, e.g. during a 30-second remote call), the observable
status is `stopped`; a subsequent `pause()` — whose guard is
`is_processing`, not the status — changes the status to `paused`,
contradicting the claim that `pause()` after `stop()` leaves the status
unchanged. -/
theorem c1_counterexample :
    Reachable sStopped ∧
    sStopped.progress.status = "stopped".data ∧
    (pause_batch sStopped).progress.status = "paused".data := by
  refine ⟨?_, by decide, by decide⟩
  exact Reachable.step
    (Reachable.step Reachable.init
      (Step.start initState ["a@x.com".data] "b1".data 0))
    (Step.stop sRun)

/-- C1 amended: legality of the control calls is guarded by the
worker-liveness flag rather than by the observable status: whenever
`is_processing` is false (the idle state and every terminal state after
the worker has exited), `pause()`, `resume()` and `stop()` are exact
no-ops and leave the status unchanged; while the worker is still alive
after `stop()`, `pause()` and `resume()` do change the status. -/
theorem c1_amended_noop_without_worker (s : ControllerState)
    (h : s.is_processing = false) :
    pause_batch s = s ∧ resume_batch s = s ∧ stop_batch s = s := by
  refine ⟨?_, ?_, ?_⟩ <;> simp [pause_batch, resume_batch, stop_batch, h]

/-- Witness for the amended C1 at the freshly constructed controller. -/
theorem c1_witness :
    initState.is_processing = false ∧
    (pause_batch initState = initState ∧ resume_batch initState = initState ∧
      stop_batch initState = initState) :=
  ⟨rfl, c1_amended_noop_without_worker initState rfl⟩

/-- C7 counterexample: in the reachable state where `stop_batch` was
called right after an item completed and before the worker reached the
rate-limit pause, the queue is non-empty and stop has been requested;
the code's sleep condition tests only the queue, so the worker still
sleeps `60 / ratePerMinute = 6` time-units (at 10 per minute), while the
claim says it proceeds without the inter-item sleep (0). -/
theorem c7_counterexample :
    Reachable sMidStopped ∧
    sMidStopped.queue = ["b@x.com".data] ∧
    sMidStopped.should_stop = true ∧
    inter_item_sleep sMidStopped (rate_limit_delay 10) = 6 ∧
    claimSleepC7 sMidStopped (rate_limit_delay 10) = 0 := by
  refine ⟨?_, by decide, by decide, ?_, ?_⟩
  · exact Reachable.step
      (Reachable.step
        (Reachable.step Reachable.init
          (Step.start initState ["a@x.com".data, "b@x.com".data] "b2".data 0))
        (Step.workerItem sRun2 rClean 1 (by decide) (by decide) (by decide)
          (by decide)))
      (Step.stop sMid)
  · rw [inter_item_sleep, if_neg (by decide)]
    rw [rate_limit_delay]
    norm_num
  · rw [claimSleepC7, if_neg (by decide)]

/-- C7 amended: the inter-item rate-limit sleep of `60 / ratePerMinute`
time-units occurs after an item exactly when the queue is non-empty,
regardless of whether stop has been requested; when the queue is empty
after the last item the worker proceeds without the sleep. -/
theorem c7_amended_sleep_iff_queue_nonempty (s : ControllerState) (rate : ℚ)
    (h : 0 < rate) :
    inter_item_sleep s (rate_limit_delay rate) =
      (if s.queue.isEmpty then 0 else 60 / rate) ∧
    (inter_item_sleep s (rate_limit_delay rate) ≠ 0 ↔ s.queue ≠ []) := by
  constructor
  · rfl
  · by_cases hq : s.queue.isEmpty = true
    · rw [inter_item_sleep, if_pos hq]
      simp [List.isEmpty_iff.1 hq]
    · rw [inter_item_sleep, if_neg hq]
      rw [List.isEmpty_iff] at hq
      have h60 : (60 : ℚ) / rate ≠ 0 := div_ne_zero (by norm_num) (ne_of_gt h)
      rw [rate_limit_delay]
      simp [h60, hq]

/-- Witness for the amended C7 at the concrete post-item state. -/
theorem c7_witness :
    (0 : ℚ) < 10 ∧
    (inter_item_sleep sMidStopped (rate_limit_delay 10) =
        (if sMidStopped.queue.isEmpty then 0 else 60 / 10) ∧
      (inter_item_sleep sMidStopped (rate_limit_delay 10) ≠ 0 ↔
        sMidStopped.queue ≠ [])) :=
  ⟨by norm_num, c7_amended_sleep_iff_queue_nonempty sMidStopped 10 (by norm_num)⟩

/-- C5 counterexample: on the snapshot right after `start_batch_scan`
(`completed = 0`), `_update_estimated_completion` leaves the
`estimated_completion` field unchanged — it stays `None` — whereas the
claim says the ETA is 0 when `completed == 0`; `None` differs from the
claimed projection value under either reading (a 0 duration, or now
plus a 0 duration). -/
theorem c5_counterexample :
    sRun.progress.completed = 0 ∧
    sRun.progress.estimated_completion = none ∧
    (update_estimated_completion sRun.progress 10).estimated_completion =
      none ∧
    claimedEtaC5 10 0 1 = 0 ∧
    (none : Option ℚ) ≠ some (claimedEtaC5 10 0 1) ∧
    (none : Option ℚ) ≠ some (10 + claimedEtaC5 10 0 1) := by
  refine ⟨by decide, by decide, by decide, by decide, by decide, by decide⟩

/-- C5 amended: after each completed item with `completed > 0` and
positive elapsed time, the controller sets `estimated_completion` to the
absolute time `now + elapsed / completed * remaining` (the linear-rate
projection added to the current time); when `completed == 0` or no time
has elapsed, the field is left unchanged (initially `None`), not 0. -/
theorem c5_amended_eta_projection (p : Progress) (now st : ℚ)
    (hst : p.start_time = some st) (hc : 0 < p.completed) (he : st < now) :
    (update_estimated_completion p now).estimated_completion =
      some (now + (now - st) / (p.completed : ℚ) *
        ((p.total : ℚ) - (p.completed : ℚ))) := by
  rw [update_estimated_completion, if_pos hc, hst]
  dsimp only
  have helapsed : now - st > 0 := sub_pos.2 he
  have hcQ : (0 : ℚ) < (p.completed : ℚ) := by exact_mod_cast hc
  rw [if_pos helapsed, if_pos (div_pos hcQ helapsed)]
  dsimp only
  congr 1
  have hc0 : (p.completed : ℚ) ≠ 0 := ne_of_gt hcQ
  have he0 : now - st ≠ 0 := ne_of_gt helapsed
  field_simp
  ring

/-- Witness for the amended C5: one item done out of five, two
time-units elapsed — the ETA lands at
`now + elapsed / completed * remaining = 2 + 2 / 1 * 4 = 10`. -/
theorem c5_witness :
    pMidway.start_time = some 0 ∧ 0 < pMidway.completed ∧ (0 : ℚ) < 2 ∧
    (update_estimated_completion pMidway 2).estimated_completion = some 10 := by
  refine ⟨rfl, by decide, by norm_num, ?_⟩
  have h := c5_amended_eta_projection pMidway 2 0 rfl (by decide) (by norm_num)
  rw [h]
  norm_num [pMidway]

/-- C2: when a start is accepted (no batch in flight, at least one valid
identifier), the new queue is exactly the normalized identifiers passing
the email pattern, deduplicated to their first occurrences in order:
it equals `firstOccs` of the normalized-and-filtered input, its members
are exactly the normalized valid identifiers, and it has no duplicates;
invalid and duplicate entries are dropped without error. -/
theorem c2_start_enqueues_valid_dedup (s : ControllerState)
    (emails : List Str) (newId : Str) (now : ℚ)
    (h1 : s.is_processing = false) (h2 : validNormalized emails ≠ []) :
    (start_batch_scan s emails newId now).2 = .ok newId ∧
    (start_batch_scan s emails newId now).1.queue =
      firstOccs (validNormalized emails) ∧
    (∀ e : Str, e ∈ (start_batch_scan s emails newId now).1.queue ↔
      e ∈ (emails.map normalizeEmail).filter is_valid_email) ∧
    (start_batch_scan s emails newId now).1.queue.Nodup := by
  have hne : ¬ (validNormalized emails).isEmpty = true := by
    simpa [List.isEmpty_iff] using h2
  have hqueue : (start_batch_scan s emails newId now).1.queue =
      dedupLoop [] (validNormalized emails) := by
    simp [start_batch_scan, h1, hne]
  have hok : (start_batch_scan s emails newId now).2 = .ok newId := by
    simp [start_batch_scan, h1, hne]
  rw [dedupLoop_nil_eq_firstOccs] at hqueue
  refine ⟨hok, hqueue, ?_, ?_⟩
  · intro e
    rw [hqueue, mem_firstOccs (validNormalized emails) e]
    exact Iff.rfl
  · rw [hqueue]
    exact nodup_firstOccs _

/-- Witness for C2 on the claim's own example:
`["A@x.com", "a@x.com ", " b@@bad"]` yields the queue `["a@x.com"]`. -/
theorem c2_witness :
    initState.is_processing = false ∧
    validNormalized ["A@x.com".data, "a@x.com ".data, " b@@bad".data] ≠ [] ∧
    (start_batch_scan initState
        ["A@x.com".data, "a@x.com ".data, " b@@bad".data]
        "b3".data 0).2 = .ok "b3".data ∧
    (start_batch_scan initState
        ["A@x.com".data, "a@x.com ".data, " b@@bad".data]
        "b3".data 0).1.queue = ["a@x.com".data] := by
  have h := c2_start_enqueues_valid_dedup initState
    ["A@x.com".data, "a@x.com ".data, " b@@bad".data] "b3".data 0
    rfl (by decide)
  exact ⟨rfl, by decide, h.1, by decide⟩

/-- C8: for every reachable controller state, `start_batch_scan` fails
with the already-running error whenever the observable status is
`running` or `paused` (the reachability invariant links those statuses
to the `is_processing` guard the code actually tests); it fails with the
no-valid-input error when no worker is alive and the input normalizes to
no valid identifier; and every failure is atomic — the returned state
(queue, results, progress, batch id) is exactly the pre-call state. -/
theorem c8_start_failures_atomic (s : ControllerState) (hr : Reachable s)
    (emails : List Str) (newId : Str) (now : ℚ) :
    ((s.progress.status = "running".data ∨ s.progress.status = "paused".data) →
      start_batch_scan s emails newId now = (s, .error .alreadyRunning)) ∧
    (s.is_processing = false → validNormalized emails = [] →
      start_batch_scan s emails newId now = (s, .error .noValidInput)) ∧
    (∀ err : StartError, (start_batch_scan s emails newId now).2 = .error err →
      (start_batch_scan s emails newId now).1 = s) := by
  refine ⟨?_, start_batch_scan_of_no_valid s emails newId now, ?_⟩
  · intro hact
    exact start_batch_scan_of_processing s emails newId now
      (reachable_active_is_processing s hr hact)
  · intro err herr
    by_cases h1 : s.is_processing = true
    · rw [start_batch_scan_of_processing s emails newId now h1]
    · by_cases h2 : validNormalized emails = []
      · rw [start_batch_scan_of_no_valid s emails newId now
          (by simpa using h1) h2]
      · exfalso
        have hok : (start_batch_scan s emails newId now).2 = .ok newId := by
          simp [start_batch_scan, h1, h2]
        rw [hok] at herr
        exact Except.noConfusion herr

/-- Witness for C8: starting while `sRun` is running fails with the
already-running error and leaves the state untouched; starting from
fresh with no valid identifier fails with the no-valid-input error. -/
theorem c8_witness :
    start_batch_scan sRun ["c@x.com".data] "b4".data 1 =
      (sRun, .error .alreadyRunning) ∧
    start_batch_scan initState ["not-an-email".data] "b4".data 1 =
      (initState, .error .noValidInput) := by
  constructor
  · exact (c8_start_failures_atomic sRun
      (Reachable.step Reachable.init
        (Step.start initState ["a@x.com".data] "b1".data 0))
      ["c@x.com".data] "b4".data 1).1 (Or.inl (by decide))
  · exact (c8_start_failures_atomic initState Reachable.init
      ["not-an-email".data] "b4".data 1).2.1 rfl (by decide)

/-- C6: `get_batch_statistics` returns the `{}` sentinel (`none`)
exactly when the results snapshot is empty; otherwise the severity-tier
histogram counts, in first-encounter order, exactly the severities of
the results whose status is `compromised`, and `top_breaches` is the
first 10 entries of the breach-name frequency table sorted by descending
frequency — a sort that is a permutation of the first-encounter
frequency table, pairwise non-increasing, and stable (entries of any
fixed frequency stay in first-encountered order). -/
theorem c6_statistics_characterised (results : List ScanResult)
    (start_time : Option ℚ) (now : ℚ) :
    (get_batch_statistics results start_time now = none ↔ results = []) ∧
    (∀ stats : BatchStats,
      get_batch_statistics results start_time now = some stats →
      stats.severity_breakdown =
        firstEncounterCounts (compromisedSeverities results) ∧
      stats.top_breaches =
        (sortDesc (firstEncounterCounts (allBreachNames results))).take 10 ∧
      List.Sorted (fun a b : Str × Nat => b.2 ≤ a.2) stats.top_breaches ∧
      List.Perm (sortDesc (firstEncounterCounts (allBreachNames results)))
        (firstEncounterCounts (allBreachNames results)) ∧
      (∀ c : Nat,
        (sortDesc (firstEncounterCounts (allBreachNames results))).filter
            (fun p => p.2 = c) =
          (firstEncounterCounts (allBreachNames results)).filter
            (fun p => p.2 = c))) := by
  constructor
  · rw [get_batch_statistics]
    split_ifs with h
    · simp [List.isEmpty_iff.1 h]
    · rw [List.isEmpty_eq_true] at h
      simp [h]
  · intro stats hstats
    rw [get_batch_statistics] at hstats
    split_ifs at hstats with h
    injection hstats with h2
    subst h2
    refine ⟨?_, ?_, ?_, perm_sortDesc _, fun c => filter_sortDesc c _⟩
    · show countsOf _ = _
      rw [countsOf_eq]
      rfl
    · show (sortDesc (countsOf _)).take 10 = _
      rw [countsOf_eq]
      rfl
    · show List.Sorted _ ((sortDesc (countsOf _)).take 10)
      exact List.Pairwise.sublist (List.take_sublist 10 _) (sorted_sortDesc _)

/-- Witness for C6 on a one-result snapshot: a compromised result with
two exposure records from the same source. -/
theorem c6_witness :
    get_batch_statistics [rCompromised] none 0 = some statsCompromised ∧
    (statsCompromised.severity_breakdown =
        firstEncounterCounts (compromisedSeverities [rCompromised]) ∧
      statsCompromised.top_breaches =
        (sortDesc (firstEncounterCounts (allBreachNames [rCompromised]))).take 10 ∧
      List.Sorted (fun a b : Str × Nat => b.2 ≤ a.2)
        statsCompromised.top_breaches ∧
      List.Perm (sortDesc (firstEncounterCounts (allBreachNames [rCompromised])))
        (firstEncounterCounts (allBreachNames [rCompromised])) ∧
      (∀ c : Nat,
        (sortDesc (firstEncounterCounts (allBreachNames [rCompromised]))).filter
            (fun p => p.2 = c) =
          (firstEncounterCounts (allBreachNames [rCompromised])).filter
            (fun p => p.2 = c))) := by
  have hs : get_batch_statistics [rCompromised] none 0 = some statsCompromised := by
    decide
  exact ⟨hs, (c6_statistics_characterised [rCompromised] none 0).2
    statsCompromised hs⟩

end NWCRC
